import Mathlib

/-!
Verification of the news_fetcher sync orchestration core.

The Go service package (SyncService.Sync and its helpers filterByDate,
filterForSync, saveArticle, updateSyncState) is shallowly embedded below.
Timestamps are modelled as integers; the Go t.After(u) test is the strict
comparison t > u.  The postgres collaborators (ArticleStore, TagStore,
SyncStateStore, TransactionManager) are modelled as pure operations on an
in-memory database value mirroring their SQL; I/O failures of the real
collaborators are represented by an injected fault environment.  Every
collaborator invocation is recorded in an event trace so that statements
of the form "no store call is made" can be expressed directly.
-/

namespace NewsFetcher

/-- Timestamps, as in Go time.Time instants; After is strict greater-than. -/
abbrev Time := Int

/-- Collaborator error values (the message of a Go error). -/
abbrev Err := String

/-- domain.Tag -/
structure Tag where
  id : Int
  label : String
deriving Repr, DecidableEq

/-- domain.Article -/
structure Article where
  id : Int := 0
  sourceID : String
  externalID : Int
  title : String := ""
  description : Option String := none
  summary : Option String := none
  body : Option String := none
  author : Option String := none
  canonicalURL : String := ""
  imageURL : Option String := none
  publishedAt : Time
  lastModified : Time
  duration : Int := 0
  tags : List Tag := []
deriving Repr, DecidableEq

/-- domain.SyncState (one row per source in the sync_state table). -/
structure SyncState where
  id : Int := 0
  sourceID : String
  lastSyncedAt : Time := 0
  lastArticleID : Int := 0
  totalSynced : Int := 0
deriving Repr, DecidableEq

/-- domain.SyncStats (the per-cycle counters; the wall-clock Duration field
is not modelled). -/
structure SyncStats where
  sourceID : String := ""
  fetched : Nat := 0
  new : Nat := 0
  updated : Nat := 0
  skipped : Nat := 0
  errors : Nat := 0
  published : Nat := 0
deriving Repr, DecidableEq

/-- config.SyncConfig (the fields the orchestrator reads). -/
structure SyncConfig where
  maxPagesPerSync : Nat := 5
  maxHistoricalDays : Nat := 30
deriving Repr, DecidableEq

/-- A row of the articles table. -/
structure ArticleRow where
  id : Int
  sourceID : String
  externalID : Int
  title : String
  description : Option String
  summary : Option String
  body : Option String
  author : Option String
  canonicalURL : String
  imageURL : Option String
  publishedAt : Time
  lastModified : Time
  duration : Int
deriving Repr, DecidableEq

/-- The relational store: articles, tags, article_tags and sync_state
tables, plus the sequence feeding the articles primary key. -/
structure DB where
  articleRows : List ArticleRow := []
  nextArticleID : Int := 1
  tagRows : List Tag := []
  articleTagRows : List (Int × Int) := []
  syncStateRows : List SyncState := []
deriving Repr, DecidableEq

/-- The row INSERTed by ArticleStore.Upsert when no conflicting row exists. -/
def insertedRow (id : Int) (a : Article) : ArticleRow :=
  { id := id
    sourceID := a.sourceID
    externalID := a.externalID
    title := a.title
    description := a.description
    summary := a.summary
    body := a.body
    author := a.author
    canonicalURL := a.canonicalURL
    imageURL := a.imageURL
    publishedAt := a.publishedAt
    lastModified := a.lastModified
    duration := a.duration }

/-- The DO UPDATE SET clause of ArticleStore.Upsert: every listed column is
overwritten from EXCLUDED; id, published_at and the key columns are kept. -/
def updatedRow (r : ArticleRow) (a : Article) : ArticleRow :=
  { r with
    title := a.title
    description := a.description
    summary := a.summary
    body := a.body
    author := a.author
    canonicalURL := a.canonicalURL
    imageURL := a.imageURL
    lastModified := a.lastModified
    duration := a.duration }

/-- Lookup of the articles row with the given (source_id, external_id) key. -/
def DB.findArticle (db : DB) (sourceID : String) (externalID : Int) :
    Option ArticleRow :=
  db.articleRows.find? (fun r => r.sourceID == sourceID && r.externalID == externalID)

/-- postgres ArticleStore.Upsert: INSERT ... ON CONFLICT (source_id,
external_id) DO UPDATE SET ... WHERE articles.last_modified <
EXCLUDED.last_modified RETURNING id; when the conditional update touches no
row (stale incoming record) the id is fetched by the follow-up SELECT.
Returns the new store and the row id. -/
def articleUpsert (db : DB) (a : Article) : DB × Int :=
  match db.findArticle a.sourceID a.externalID with
  | none =>
      ({ db with
          articleRows := db.articleRows ++ [insertedRow db.nextArticleID a]
          nextArticleID := db.nextArticleID + 1 },
       db.nextArticleID)
  | some r =>
      if r.lastModified < a.lastModified then
        ({ db with
            articleRows := db.articleRows.map (fun r0 =>
              if r0.sourceID == a.sourceID && r0.externalID == a.externalID then
                updatedRow r0 a
              else r0) },
         r.id)
      else
        (db, r.id)

/-- postgres ArticleStore.GetExistingBySourceAndExternalIDs: for an empty id
list no query is issued and the empty map is returned; otherwise one
(external_id, last_modified) row per stored article of this source whose
external id is in the list. -/
def getExistingRows (db : DB) (sourceID : String) (ids : List Int) :
    List (Int × Time) :=
  if ids.isEmpty then []
  else
    (db.articleRows.filter (fun r =>
        r.sourceID == sourceID && ids.contains r.externalID)).map
      (fun r => (r.externalID, r.lastModified))

/-- Reading a Go map built by inserting the listed key/value pairs in order
(a later binding overwrites an earlier one). -/
def goMapGet (rows : List (Int × Time)) (k : Int) : Option Time :=
  rows.foldl (fun acc kv => if kv.1 == k then some kv.2 else acc) none

/-- postgres TagStore.UpsertBatch: INSERT ... ON CONFLICT (id) DO UPDATE SET
label = EXCLUDED.label, applied pairwise over the batch. -/
def tagUpsertBatch (db : DB) (tags : List Tag) : DB :=
  if tags.isEmpty then db
  else
    { db with
      tagRows := tags.foldl (fun rows t =>
        if rows.any (fun t0 => t0.id == t.id) then
          rows.map (fun t0 => if t0.id == t.id then { t0 with label := t.label } else t0)
        else rows ++ [t]) db.tagRows }

/-- postgres TagStore.LinkToArticle: DELETE existing links of the article,
then INSERT the given tag ids (ON CONFLICT DO NOTHING deduplicates). -/
def tagLinkToArticle (db : DB) (articleID : Int) (tagIDs : List Int) : DB :=
  let remaining := db.articleTagRows.filter (fun p => !(p.1 == articleID))
  if tagIDs.isEmpty then { db with articleTagRows := remaining }
  else
    { db with
      articleTagRows := remaining ++ tagIDs.foldl (fun acc tid =>
        if acc.contains (articleID, tid) then acc else acc ++ [(articleID, tid)]) [] }

/-- postgres SyncStateStore.Get: the stored row for the source, or the lazily
created zero-value state when absent (absence is never an error). -/
def syncStateGet (db : DB) (sourceID : String) : SyncState :=
  match db.syncStateRows.find? (fun st => st.sourceID == sourceID) with
  | some st => st
  | none => { sourceID := sourceID, lastSyncedAt := 0, totalSynced := 0 }

/-- postgres SyncStateStore.Update: INSERT ... ON CONFLICT (source_id) DO
UPDATE SET last_synced_at, last_article_id, total_synced. -/
def syncStateUpdate (db : DB) (state : SyncState) : DB :=
  if db.syncStateRows.any (fun st => st.sourceID == state.sourceID) then
    { db with
      syncStateRows := db.syncStateRows.map (fun st =>
        if st.sourceID == state.sourceID then
          { st with
            lastSyncedAt := state.lastSyncedAt
            lastArticleID := state.lastArticleID
            totalSynced := state.totalSynced }
        else st) }
  else
    { db with syncStateRows := db.syncStateRows ++ [state] }

/-- One collaborator invocation made by the orchestrator. -/
inductive Event
  | fetchArticles (maxPages : Nat)
  | getExisting (sourceID : String) (ids : List Int)
  | withTransaction
  | upsertArticle (externalID : Int)
  | upsertTagBatch (tags : List Tag)
  | linkToArticle (articleID : Int) (tagIDs : List Int)
  | publish (externalID : Int) (isNew : Bool)
  | stateGet (sourceID : String)
  | stateUpdate (state : SyncState)
deriving Repr, DecidableEq

/-- Injected I/O failures of the collaborators; a none entry means the call
succeeds with the semantics of the DB model.  Per-record faults are keyed by
the external id of the record being processed. -/
structure Faults where
  batchQueryErr : Option Err := none
  recheckErr : Int → Option Err := fun _ => none
  upsertErr : Int → Option Err := fun _ => none
  tagUpsertErr : Int → Option Err := fun _ => none
  linkErr : Int → Option Err := fun _ => none
  publishErr : Int → Option Err := fun _ => none
  stateGetErr : Option Err := none
  stateUpdateErr : Option Err := none

/-- The fault-free environment. -/
def Faults.none : Faults := {}

/-- The SyncService dependencies relevant to one cycle: the source identity,
the Content Source response for this cycle, whether a publisher is
configured, the configuration, and the two time.Now() readings (at cutoff
computation and inside updateSyncState). -/
structure SyncService where
  sourceID : String
  fetchResult : Except Err (List Article)
  hasPublisher : Bool := true
  config : SyncConfig := {}
  now : Time := 0
  nowUpdate : Time := 0

/-- Go time.AddDate(0, 0, d) on the integer time scale: one day is 86400
seconds. -/
def addDays (t : Time) (days : Int) : Time := t + days * 86400

/-- The cutoff date of a cycle: now minus MaxHistoricalDays days. -/
def cutoffOf (s : SyncService) : Time :=
  addDays s.now (-(s.config.maxHistoricalDays : Int))

/-- SyncService.filterByDate: keep the articles whose PublishedAt is
strictly after the cutoff. -/
def filterByDate (articles : List Article) (cutoff : Time) : List Article :=
  articles.filter (fun a => a.publishedAt > cutoff)

/-- The records surviving the date filter of a cycle. -/
def survivors (s : SyncService) (fetched : List Article) : List Article :=
  filterByDate fetched (cutoffOf s)

/-- The selection predicate of filterForSync: selected when the batch map
has no entry for the external id, or the incoming LastModified is strictly
after the stored one. -/
def wantsSync (existing : List (Int × Time)) (a : Article) : Bool :=
  match goMapGet existing a.externalID with
  | Option.none => true
  | Option.some t => decide (a.lastModified > t)

/-- SyncService.filterForSync: with no surviving article, return the empty
selection without querying the store; otherwise query the batch existence
map once and keep the new or strictly newer records.  Returns the selection
(or the store error) and the trace of the call. -/
def filterForSync (s : SyncService) (f : Faults) (db : DB)
    (articles : List Article) : Except Err (List Article) × List Event :=
  if articles.isEmpty then (Except.ok [], [])
  else
    let externalIDs := articles.map (fun a => a.externalID)
    let ev := [Event.getExisting s.sourceID externalIDs]
    match f.batchQueryErr with
    | Option.some e => (Except.error e, ev)
    | Option.none =>
        let existing := getExistingRows db s.sourceID externalIDs
        (Except.ok (articles.filter (fun a => wantsSync existing a)), ev)

/-- The body run inside the unit of work of saveArticle: upsert the record;
when it carries tags, upsert the tag batch and replace the links.  Errors
are wrapped as in the Go code. -/
def saveTxBody (s : SyncService) (f : Faults) (db : DB) (a : Article) :
    Except Err DB × List Event :=
  match f.upsertErr a.externalID with
  | Option.some e => (Except.error ("upsert article: " ++ e), [Event.upsertArticle a.externalID])
  | Option.none =>
      let up := articleUpsert db a
      let ev := [Event.upsertArticle a.externalID]
      if a.tags.isEmpty then (Except.ok up.1, ev)
      else
        match f.tagUpsertErr a.externalID with
        | Option.some e => (Except.error ("upsert tags: " ++ e), ev ++ [Event.upsertTagBatch a.tags])
        | Option.none =>
            let db2 := tagUpsertBatch up.1 a.tags
            let tagIDs := a.tags.map (fun t => t.id)
            let ev2 := ev ++ [Event.upsertTagBatch a.tags]
            match f.linkErr a.externalID with
            | Option.some e =>
                (Except.error ("link tags: " ++ e), ev2 ++ [Event.linkToArticle up.2 tagIDs])
            | Option.none =>
                (Except.ok (tagLinkToArticle db2 up.2 tagIDs),
                 ev2 ++ [Event.linkToArticle up.2 tagIDs])

/-- TransactionManager.WithTransaction: run the body; commit its writes on
success, discard them (rollback) on error. -/
def withTransaction (db : DB) (body : DB → Except Err DB × List Event) :
    Except Err Unit × DB × List Event :=
  let r := body db
  match r.1 with
  | Except.error e => (Except.error e, db, r.2)
  | Except.ok db1 => (Except.ok (), db1, r.2)

/-- SyncService.saveArticle: re-query existence for this single external id
to classify the save as new or update, then run the transactional body.
Returns the classification (or the error), the store after the call and the
trace. -/
def saveArticle (s : SyncService) (f : Faults) (db : DB) (a : Article) :
    Except Err Bool × DB × List Event :=
  let ev0 := [Event.getExisting s.sourceID [a.externalID]]
  match f.recheckErr a.externalID with
  | Option.some e => (Except.error e, db, ev0)
  | Option.none =>
      let existing := getExistingRows db s.sourceID [a.externalID]
      let isNew := existing.isEmpty
      let tx := withTransaction db (fun d => saveTxBody s f d a)
      let ev := ev0 ++ [Event.withTransaction] ++ tx.2.2
      match tx.1 with
      | Except.error e => (Except.error e, tx.2.1, ev)
      | Except.ok _ => (Except.ok isNew, tx.2.1, ev)

/-- The publish stage of the persist loop: when a publisher is configured,
publish the record with its classification (a failure counts one error, a
success counts one publication); a nil publisher skips the call entirely. -/
def publishStep (s : SyncService) (f : Faults) (a : Article) (isNew : Bool)
    (stats : SyncStats) : SyncStats × List Event :=
  if s.hasPublisher then
    match f.publishErr a.externalID with
    | Option.some _ =>
        ({ stats with errors := stats.errors + 1 }, [Event.publish a.externalID isNew])
    | Option.none =>
        ({ stats with published := stats.published + 1 }, [Event.publish a.externalID isNew])
  else (stats, [])

/-- The counting stage of the persist loop: one more new or one more
updated record, according to the classification of the save. -/
def countStep (isNew : Bool) (stats : SyncStats) : SyncStats :=
  if isNew then { stats with new := stats.new + 1 }
  else { stats with updated := stats.updated + 1 }

/-- The persist loop of SyncService.Sync: per selected record, save it (a
failure counts one error and the loop continues), then publish, then count
the record as new or updated. -/
def syncLoop (s : SyncService) (f : Faults) :
    List Article → DB → SyncStats → List Event → DB × SyncStats × List Event
  | [], db, stats, ev => (db, stats, ev)
  | a :: rest, db, stats, ev =>
      let sv := saveArticle s f db a
      match sv.1 with
      | Except.error _ =>
          syncLoop s f rest sv.2.1 { stats with errors := stats.errors + 1 } (ev ++ sv.2.2)
      | Except.ok isNew =>
          let pub := publishStep s f a isNew stats
          syncLoop s f rest sv.2.1 (countStep isNew pub.1) (ev ++ sv.2.2 ++ pub.2)

/-- The state written by SyncService.updateSyncState: the state read for
the source, with LastSyncedAt stamped to the current time and New+Updated
added to TotalSynced. -/
def newSyncState (s : SyncService) (db : DB) (stats : SyncStats) : SyncState :=
  { syncStateGet db s.sourceID with
    sourceID := s.sourceID
    lastSyncedAt := s.nowUpdate
    totalSynced := (syncStateGet db s.sourceID).totalSynced +
      ((stats.new + stats.updated : Nat) : Int) }

/-- SyncService.updateSyncState: read the current SyncState of the source,
stamp LastSyncedAt with the current time, add New+Updated to TotalSynced and
persist the result. -/
def updateSyncState (s : SyncService) (f : Faults) (db : DB)
    (stats : SyncStats) : Except Err Unit × DB × List Event :=
  let ev0 := [Event.stateGet s.sourceID]
  match f.stateGetErr with
  | Option.some e => (Except.error e, db, ev0)
  | Option.none =>
      let newState := newSyncState s db stats
      let ev := ev0 ++ [Event.stateUpdate newState]
      match f.stateUpdateErr with
      | Option.some e => (Except.error e, db, ev)
      | Option.none => (Except.ok (), syncStateUpdate db newState, ev)

/-- The wrapped errors SyncService.Sync can return. -/
inductive SyncError
  | fetchFailed (e : Err)
  | filterFailed (e : Err)
  | updateStateFailed (e : Err)
deriving Repr, DecidableEq

/-- The initial statistics of a cycle, computed right after the two
filters: Fetched is the post-date-filter count and Skipped the difference
between it and the selected count. -/
def initStats (s : SyncService) (articles toSync : List Article) : SyncStats :=
  { sourceID := s.sourceID
    fetched := articles.length
    skipped := articles.length - toSync.length }

/-- The tail of SyncService.Sync once both filters have succeeded: run the
persist loop over the selection, then the progress update; a progress
failure is surfaced as a wrapped error next to the already-computed stats. -/
def syncRest (s : SyncService) (f : Faults) (db : DB)
    (articles toSync : List Article) (ev : List Event) :
    (Option SyncStats × Option SyncError) × DB × List Event :=
  let lp := syncLoop s f toSync db (initStats s articles toSync) []
  let upd := updateSyncState s f lp.1 lp.2.1
  let evAll := ev ++ lp.2.2 ++ upd.2.2
  match upd.1 with
  | Except.error e =>
      ((Option.some lp.2.1, Option.some (SyncError.updateStateFailed e)),
       upd.2.1, evAll)
  | Except.ok _ => ((Option.some lp.2.1, Option.none), upd.2.1, evAll)

/-- SyncService.Sync: fetch, filter by date, filter for sync, persist loop,
progress update.  The first component mirrors the Go (stats, error) return
pair; the rest is the store after the cycle and the trace of collaborator
calls. -/
def Sync (s : SyncService) (f : Faults) (db : DB) :
    (Option SyncStats × Option SyncError) × DB × List Event :=
  let ev0 := Event.fetchArticles s.config.maxPagesPerSync
  match s.fetchResult with
  | Except.error e => ((Option.none, Option.some (SyncError.fetchFailed e)), db, [ev0])
  | Except.ok fetched =>
      let articles := survivors s fetched
      let fs := filterForSync s f db articles
      match fs.1 with
      | Except.error e =>
          ((Option.none, Option.some (SyncError.filterFailed e)), db, ev0 :: fs.2)
      | Except.ok toSync => syncRest s f db articles toSync (ev0 :: fs.2)

/-- The TotalSynced visible for a source: the stored value, or zero while
the row is absent (matching the lazily created zero-value state). -/
def persistedTotal (db : DB) (sourceID : String) : Int :=
  (syncStateGet db sourceID).totalSynced

/-- Successive cycles: run Sync over the evolving store, collecting the
per-cycle (stats, error) return pairs. -/
def runCycles : DB → List (SyncService × Faults) →
    DB × List (Option SyncStats × Option SyncError)
  | db, [] => (db, [])
  | db, c :: rest =>
      let r := Sync c.1 c.2 db
      let rec0 := runCycles r.2.1 rest
      (rec0.1, r.1 :: rec0.2)

/-! Concrete fixtures used to instantiate the theorems below on closed
inputs (mirroring the Go unit-test scenarios). -/

/-- A sample tag. -/
def exTag : Tag := { id := 1, label := "t1" }

/-- A sample fresh article (published now). -/
def exArticle : Article :=
  { sourceID := "src", externalID := 1, title := "a"
    publishedAt := 1000000, lastModified := 1000000, tags := [exTag] }

/-- A second sample article. -/
def exArticle2 : Article :=
  { sourceID := "src", externalID := 2, title := "b"
    publishedAt := 1000000, lastModified := 900000 }

/-- A sample service around a given fetch result. -/
def exService (r : Except Err (List Article)) : SyncService :=
  { sourceID := "src", fetchResult := r, now := 1000000, nowUpdate := 1000001 }

/-- A store already holding exArticle (same LastModified). -/
def exDBSame : DB :=
  { articleRows := [insertedRow 100 exArticle], nextArticleID := 101 }

/-- A store holding exArticle with an older stored LastModified. -/
def exDBOlder : DB :=
  { articleRows := [insertedRow 100 { exArticle with lastModified := 999000 }]
    nextArticleID := 101 }

/-- Faults making the progress persist fail. -/
def exFaultStateUpdate : Faults := { stateUpdateErr := Option.some "state-boom" }

/-- Any property preserved by the four counter increments is a syncLoop
invariant. -/
theorem syncLoop_stats_inv (s : SyncService) (f : Faults) (P : SyncStats → Prop)
    (hErr : ∀ st, P st → P { st with errors := st.errors + 1 })
    (hPub : ∀ st, P st → P { st with published := st.published + 1 })
    (hNew : ∀ st, P st → P { st with new := st.new + 1 })
    (hUpd : ∀ st, P st → P { st with updated := st.updated + 1 }) :
    ∀ (l : List Article) (db : DB) (stats : SyncStats) (ev : List Event),
      P stats → P (syncLoop s f l db stats ev).2.1 := by
  intro l
  induction l with
  | nil => intro db stats ev h; exact h
  | cons a rest ih =>
      intro db stats ev h
      rw [syncLoop]
      cases hsv : (saveArticle s f db a).1 with
      | error e => exact ih _ _ _ (hErr _ h)
      | ok isNew =>
          refine ih _ _ _ ?_
          have hpub : P (publishStep s f a isNew stats).1 := by
            unfold publishStep
            split
            · cases f.publishErr a.externalID with
              | none => exact hPub _ h
              | some e => exact hErr _ h
            · exact h
          unfold countStep
          split
          · exact hNew _ hpub
          · exact hUpd _ hpub

/-- The loop never changes the sourceID of the statistics. -/
theorem syncLoop_sourceID (s : SyncService) (f : Faults) (l : List Article)
    (db : DB) (stats : SyncStats) (ev : List Event) :
    (syncLoop s f l db stats ev).2.1.sourceID = stats.sourceID :=
  syncLoop_stats_inv s f (fun st => st.sourceID = stats.sourceID)
    (fun _ h => h) (fun _ h => h) (fun _ h => h) (fun _ h => h) l db stats ev rfl

/-- The loop never changes the fetched count. -/
theorem syncLoop_fetched (s : SyncService) (f : Faults) (l : List Article)
    (db : DB) (stats : SyncStats) (ev : List Event) :
    (syncLoop s f l db stats ev).2.1.fetched = stats.fetched :=
  syncLoop_stats_inv s f (fun st => st.fetched = stats.fetched)
    (fun _ h => h) (fun _ h => h) (fun _ h => h) (fun _ h => h) l db stats ev rfl

/-- The loop never changes the skipped count. -/
theorem syncLoop_skipped (s : SyncService) (f : Faults) (l : List Article)
    (db : DB) (stats : SyncStats) (ev : List Event) :
    (syncLoop s f l db stats ev).2.1.skipped = stats.skipped :=
  syncLoop_stats_inv s f (fun st => st.skipped = stats.skipped)
    (fun _ h => h) (fun _ h => h) (fun _ h => h) (fun _ h => h) l db stats ev rfl

/-! Helper lemmas about the two filters. -/

/-- Membership in the date filter output. -/
theorem mem_filterByDate (articles : List Article) (cutoff : Time) (a : Article) :
    a ∈ filterByDate articles cutoff ↔ a ∈ articles ∧ a.publishedAt > cutoff := by
  simp [filterByDate, List.mem_filter]

/-- With no batch-query fault, filterForSync returns the records selected by
the wantsSync predicate over the batch existence map. -/
theorem filterForSync_ok (s : SyncService) (f : Faults) (db : DB)
    (articles : List Article) (hb : f.batchQueryErr = Option.none) :
    (filterForSync s f db articles).1 =
      Except.ok (articles.filter (fun a =>
        wantsSync (getExistingRows db s.sourceID
          (articles.map (fun x => x.externalID))) a)) := by
  unfold filterForSync
  split
  · rename_i h
    rw [List.isEmpty_iff] at h
    subst h
    rfl
  · rw [hb]

/-- The selection predicate holds exactly when the map has no entry or the
incoming LastModified is strictly after the stored one. -/
theorem wantsSync_iff (existing : List (Int × Time)) (a : Article) :
    wantsSync existing a = true ↔
      (goMapGet existing a.externalID = Option.none ∨
       ∃ t, goMapGet existing a.externalID = Option.some t ∧ a.lastModified > t) := by
  unfold wantsSync
  cases h : goMapGet existing a.externalID with
  | none => simp
  | some t => simp [h]

/-! Helper lemmas about saveArticle. -/

/-- With no save-step fault for the record, saveArticle succeeds and
classifies it by the single-id existence re-check. -/
theorem saveArticle_ok (s : SyncService) (f : Faults) (db : DB) (a : Article)
    (h1 : f.recheckErr a.externalID = Option.none)
    (h2 : f.upsertErr a.externalID = Option.none)
    (h3 : f.tagUpsertErr a.externalID = Option.none)
    (h4 : f.linkErr a.externalID = Option.none) :
    (saveArticle s f db a).1 =
      Except.ok (getExistingRows db s.sourceID [a.externalID]).isEmpty := by
  unfold saveArticle withTransaction saveTxBody
  simp only [h1, h2, h3, h4]
  cases hts : a.tags.isEmpty <;> simp [hts]

/-- articleUpsert leaves sync_state untouched. -/
theorem articleUpsert_syncStates (db : DB) (a : Article) :
    (articleUpsert db a).1.syncStateRows = db.syncStateRows := by
  unfold articleUpsert
  cases db.findArticle a.sourceID a.externalID with
  | none => rfl
  | some r => by_cases h : r.lastModified < a.lastModified <;> simp [h]

/-- tagUpsertBatch leaves sync_state untouched. -/
theorem tagUpsertBatch_syncStates (db : DB) (tags : List Tag) :
    (tagUpsertBatch db tags).syncStateRows = db.syncStateRows := by
  unfold tagUpsertBatch
  split <;> rfl

/-- tagLinkToArticle leaves sync_state untouched. -/
theorem tagLinkToArticle_syncStates (db : DB) (articleID : Int) (tagIDs : List Int) :
    (tagLinkToArticle db articleID tagIDs).syncStateRows = db.syncStateRows := by
  unfold tagLinkToArticle
  split <;> rfl

/-- A committed save-transaction body leaves sync_state untouched. -/
theorem saveTxBody_syncStates (s : SyncService) (f : Faults) (db : DB)
    (a : Article) (db1 : DB) (h : (saveTxBody s f db a).1 = Except.ok db1) :
    db1.syncStateRows = db.syncStateRows := by
  unfold saveTxBody at h
  cases h2 : f.upsertErr a.externalID with
  | some e => simp [h2] at h
  | none =>
      simp only [h2] at h
      cases hts : a.tags.isEmpty with
      | true =>
          simp only [hts, if_pos] at h
          simp at h
          rw [← h, articleUpsert_syncStates]
      | false =>
          simp only [hts] at h
          cases h3 : f.tagUpsertErr a.externalID with
          | some e => simp [h3] at h
          | none =>
              simp only [h3] at h
              cases h4 : f.linkErr a.externalID with
              | some e => simp [h4] at h
              | none =>
                  simp only [h4] at h
                  simp at h
                  rw [← h, tagLinkToArticle_syncStates, tagUpsertBatch_syncStates,
                    articleUpsert_syncStates]

/-- saveArticle leaves sync_state untouched, whether it commits or rolls
back. -/
theorem saveArticle_syncStates (s : SyncService) (f : Faults) (db : DB)
    (a : Article) : (saveArticle s f db a).2.1.syncStateRows = db.syncStateRows := by
  unfold saveArticle withTransaction
  cases hr : f.recheckErr a.externalID with
  | some e => simp only [hr]
  | none =>
      simp only [hr]
      cases htx : (saveTxBody s f db a).1 with
      | error e => simp only [htx]
      | ok db1 => simpa using saveTxBody_syncStates s f db a db1 htx

/-- The whole persist loop leaves sync_state untouched. -/
theorem syncLoop_syncStates (s : SyncService) (f : Faults) :
    ∀ (l : List Article) (db : DB) (stats : SyncStats) (ev : List Event),
      (syncLoop s f l db stats ev).1.syncStateRows = db.syncStateRows := by
  intro l
  induction l with
  | nil => intro db stats ev; rfl
  | cons a rest ih =>
      intro db stats ev
      rw [syncLoop]
      cases hsv : (saveArticle s f db a).1 with
      | error e => rw [ih]; exact saveArticle_syncStates s f db a
      | ok isNew => rw [ih]; exact saveArticle_syncStates s f db a

/-- Reading a sync state only looks at the sync_state table. -/
theorem syncStateGet_congr (db1 db2 : DB) (sid : String)
    (h : db1.syncStateRows = db2.syncStateRows) :
    syncStateGet db1 sid = syncStateGet db2 sid := by
  unfold syncStateGet
  rw [h]

/-! Helper lemmas about the sync_state table. -/

/-- The conditional update map of syncStateUpdate, looked up for the written
source: the first matching row is the updated one. -/
theorem find_syncRow_map_self (sid : String) (t : Time) (aid tot : Int) :
    ∀ rows : List SyncState,
      List.find? (fun st0 => st0.sourceID == sid)
          (rows.map (fun st0 =>
            if st0.sourceID == sid then
              { st0 with lastSyncedAt := t, lastArticleID := aid, totalSynced := tot }
            else st0)) =
        Option.map (fun st0 =>
            { st0 with lastSyncedAt := t, lastArticleID := aid, totalSynced := tot })
          (List.find? (fun st0 => st0.sourceID == sid) rows) := by
  intro rows
  induction rows with
  | nil => rfl
  | cons r rs ih =>
      rw [List.map_cons]
      by_cases h : r.sourceID = sid
      · rw [if_pos (by simp [h])]
        rw [List.find?_cons_of_pos _ (by simp [h]),
          List.find?_cons_of_pos _ (by simp [h])]
        rfl
      · rw [if_neg (by simp [h])]
        rw [List.find?_cons_of_neg _ (by simp [h]),
          List.find?_cons_of_neg _ (by simp [h])]
        exact ih

/-- The conditional update map of syncStateUpdate, looked up for a different
source: the lookup is unchanged. -/
theorem find_syncRow_map_other (sid sidW : String) (hne : sid ≠ sidW)
    (t : Time) (aid tot : Int) :
    ∀ rows : List SyncState,
      List.find? (fun st0 => st0.sourceID == sid)
          (rows.map (fun st0 =>
            if st0.sourceID == sidW then
              { st0 with lastSyncedAt := t, lastArticleID := aid, totalSynced := tot }
            else st0)) =
        List.find? (fun st0 => st0.sourceID == sid) rows := by
  intro rows
  induction rows with
  | nil => rfl
  | cons r rs ih =>
      rw [List.map_cons]
      by_cases hw : r.sourceID = sidW
      · rw [if_pos (by simp [hw])]
        have h2 : ¬ r.sourceID = sid := by
          rw [hw]; exact fun hh => hne hh.symm
        rw [List.find?_cons_of_neg _ (by simp [h2]),
          List.find?_cons_of_neg _ (by simp [h2])]
        exact ih
      · rw [if_neg (by simp [hw])]
        by_cases h2 : r.sourceID = sid
        · rw [List.find?_cons_of_pos _ (by simp [h2]),
            List.find?_cons_of_pos _ (by simp [h2])]
        · rw [List.find?_cons_of_neg _ (by simp [h2]),
            List.find?_cons_of_neg _ (by simp [h2])]
          exact ih

/-- The sync_state rows after an Update hitting an existing row. -/
theorem syncStateUpdate_rows_existing (db : DB) (st : SyncState)
    (hany : db.syncStateRows.any (fun st0 => st0.sourceID == st.sourceID) = true) :
    (syncStateUpdate db st).syncStateRows =
      db.syncStateRows.map (fun st0 =>
        if st0.sourceID == st.sourceID then
          { st0 with lastSyncedAt := st.lastSyncedAt
                     lastArticleID := st.lastArticleID
                     totalSynced := st.totalSynced }
        else st0) := by
  unfold syncStateUpdate
  rw [if_pos hany]

/-- The sync_state rows after an Update inserting a fresh row. -/
theorem syncStateUpdate_rows_fresh (db : DB) (st : SyncState)
    (hany : db.syncStateRows.any (fun st0 => st0.sourceID == st.sourceID) = false) :
    (syncStateUpdate db st).syncStateRows = db.syncStateRows ++ [st] := by
  unfold syncStateUpdate
  rw [if_neg (by simp [hany])]

/-- Writing a state row and reading it back for the same source yields the
written TotalSynced. -/
theorem persistedTotal_update_self (db : DB) (st : SyncState) :
    persistedTotal (syncStateUpdate db st) st.sourceID = st.totalSynced := by
  unfold persistedTotal syncStateGet
  cases hany : db.syncStateRows.any (fun st0 => st0.sourceID == st.sourceID) with
  | true =>
      rw [syncStateUpdate_rows_existing db st hany]
      rw [find_syncRow_map_self]
      cases hfind : List.find? (fun st0 => st0.sourceID == st.sourceID) db.syncStateRows with
      | none =>
          rw [List.find?_eq_none] at hfind
          obtain ⟨x, hx, hpx⟩ := List.any_eq_true.mp hany
          exact absurd hpx (hfind x hx)
      | some st0 => rfl
  | false =>
      rw [syncStateUpdate_rows_fresh db st hany]
      have hfind : List.find? (fun st0 => st0.sourceID == st.sourceID) db.syncStateRows
          = Option.none := by
        rw [List.find?_eq_none]
        intro x hx
        exact (List.any_eq_false.mp hany) x hx
      rw [List.find?_append, hfind]
      rw [List.find?_cons_of_pos _ (by simp)]
      rfl

/-- Writing a state row leaves the visible state of every other source
unchanged. -/
theorem syncStateGet_update_other (db : DB) (st : SyncState) (sid : String)
    (h : sid ≠ st.sourceID) :
    syncStateGet (syncStateUpdate db st) sid = syncStateGet db sid := by
  unfold syncStateGet
  cases hany : db.syncStateRows.any (fun st0 => st0.sourceID == st.sourceID) with
  | true =>
      rw [syncStateUpdate_rows_existing db st hany]
      rw [find_syncRow_map_other sid st.sourceID h]
  | false =>
      rw [syncStateUpdate_rows_fresh db st hany]
      rw [List.find?_append]
      have hst : ¬ st.sourceID = sid := fun hh => h hh.symm
      rw [show List.find? (fun st0 => st0.sourceID == sid) [st] = Option.none by
        rw [List.find?_cons_of_neg _ (by simp [hst])]; rfl]
      cases List.find? (fun st0 => st0.sourceID == sid) db.syncStateRows <;> rfl

/-- persistedTotal only looks at the sync_state table. -/
theorem persistedTotal_congr (db1 db2 : DB) (sid : String)
    (h : db1.syncStateRows = db2.syncStateRows) :
    persistedTotal db1 sid = persistedTotal db2 sid := by
  unfold persistedTotal
  rw [syncStateGet_congr db1 db2 sid h]

/-! Helper lemmas about updateSyncState. -/

/-- The nominal progress update: read, restamp, persist. -/
theorem updateSyncState_ok (s : SyncService) (f : Faults) (db : DB)
    (stats : SyncStats) (hg : f.stateGetErr = Option.none)
    (hu : f.stateUpdateErr = Option.none) :
    updateSyncState s f db stats =
      (Except.ok (), syncStateUpdate db (newSyncState s db stats),
       [Event.stateGet s.sourceID, Event.stateUpdate (newSyncState s db stats)]) := by
  unfold updateSyncState
  simp only [hg, hu]
  rfl

/-- A failed progress read or persist surfaces an error and leaves the
store untouched. -/
theorem updateSyncState_err (s : SyncService) (f : Faults) (db : DB)
    (stats : SyncStats)
    (h : ¬(f.stateGetErr = Option.none ∧ f.stateUpdateErr = Option.none)) :
    ∃ e, (updateSyncState s f db stats).1 = Except.error e ∧
      (updateSyncState s f db stats).2.1 = db := by
  unfold updateSyncState
  cases hg : f.stateGetErr with
  | some e => exact ⟨e, rfl, rfl⟩
  | none =>
      simp only
      cases hu : f.stateUpdateErr with
      | some e => exact ⟨e, rfl, rfl⟩
      | none => exact absurd ⟨hg, hu⟩ h

/-- A progress update that returned ok wrote exactly the restamped state. -/
theorem updateSyncState_ok_inv (s : SyncService) (f : Faults) (db : DB)
    (stats : SyncStats) (h : (updateSyncState s f db stats).1 = Except.ok ()) :
    (updateSyncState s f db stats).2.1 =
      syncStateUpdate db (newSyncState s db stats) := by
  unfold updateSyncState at h ⊢
  cases hg : f.stateGetErr with
  | some e => rw [hg] at h; simp at h
  | none =>
      cases hu : f.stateUpdateErr with
      | some e => rw [hg, hu] at h; simp at h
      | none => rfl

/-- The progress update never decreases any persisted total. -/
theorem updateSyncState_total_mono (s : SyncService) (f : Faults) (db : DB)
    (stats : SyncStats) (sid : String) :
    persistedTotal db sid ≤ persistedTotal (updateSyncState s f db stats).2.1 sid := by
  unfold updateSyncState
  cases hg : f.stateGetErr with
  | some e => exact le_refl _
  | none =>
      simp only
      cases hu : f.stateUpdateErr with
      | some e => exact le_refl _
      | none =>
          show persistedTotal db sid ≤
            persistedTotal (syncStateUpdate db (newSyncState s db stats)) sid
          by_cases hs : sid = (newSyncState s db stats).sourceID
          · rw [hs, persistedTotal_update_self]
            show (syncStateGet db s.sourceID).totalSynced ≤
              (syncStateGet db s.sourceID).totalSynced +
                ((stats.new + stats.updated : Nat) : Int)
            omega
          · unfold persistedTotal
            rw [syncStateGet_update_other db (newSyncState s db stats) sid hs]

/-- A progress update that returned ok adds exactly New+Updated to the
persisted total of the source. -/
theorem updateSyncState_total_of_ok (s : SyncService) (f : Faults) (db : DB)
    (stats : SyncStats) (h : (updateSyncState s f db stats).1 = Except.ok ()) :
    persistedTotal (updateSyncState s f db stats).2.1 s.sourceID =
      persistedTotal db s.sourceID + ((stats.new + stats.updated : Nat) : Int) := by
  rw [updateSyncState_ok_inv s f db stats h]
  exact persistedTotal_update_self db (newSyncState s db stats)

/-! Helper lemmas decomposing Sync. -/

/-- The statistics returned by the tail of the cycle are the loop's. -/
theorem syncRest_stats (s : SyncService) (f : Faults) (db : DB)
    (articles toSync : List Article) (ev : List Event) :
    (syncRest s f db articles toSync ev).1.1 =
      Option.some (syncLoop s f toSync db (initStats s articles toSync) []).2.1 := by
  simp only [syncRest]
  split <;> rfl

/-- The store returned by the tail of the cycle is the one after the
progress update of the post-loop store. -/
theorem syncRest_db (s : SyncService) (f : Faults) (db : DB)
    (articles toSync : List Article) (ev : List Event) :
    (syncRest s f db articles toSync ev).2.1 =
      (updateSyncState s f
        (syncLoop s f toSync db (initStats s articles toSync) []).1
        (syncLoop s f toSync db (initStats s articles toSync) []).2.1).2.1 := by
  simp only [syncRest]
  split <;> rfl

/-- The trace of the tail of the cycle. -/
theorem syncRest_trace (s : SyncService) (f : Faults) (db : DB)
    (articles toSync : List Article) (ev : List Event) :
    (syncRest s f db articles toSync ev).2.2 =
      ev ++ (syncLoop s f toSync db (initStats s articles toSync) []).2.2 ++
        (updateSyncState s f
          (syncLoop s f toSync db (initStats s articles toSync) []).1
          (syncLoop s f toSync db (initStats s articles toSync) []).2.1).2.2 := by
  simp only [syncRest]
  split <;> rfl

/-- An error-free tail means the progress update returned ok. -/
theorem syncRest_none (s : SyncService) (f : Faults) (db : DB)
    (articles toSync : List Article) (ev : List Event)
    (h : (syncRest s f db articles toSync ev).1.2 = Option.none) :
    (updateSyncState s f
      (syncLoop s f toSync db (initStats s articles toSync) []).1
      (syncLoop s f toSync db (initStats s articles toSync) []).2.1).1 =
      Except.ok () := by
  simp only [syncRest] at h
  split at h
  · simp at h
  · next x heq =>
      cases x
      exact heq

/-- A fetch error short-circuits the whole cycle. -/
theorem Sync_eq_fetchErr (s : SyncService) (f : Faults) (db : DB) (e : Err)
    (hf : s.fetchResult = Except.error e) :
    Sync s f db = ((Option.none, Option.some (SyncError.fetchFailed e)), db,
      [Event.fetchArticles s.config.maxPagesPerSync]) := by
  unfold Sync
  simp only [hf]

/-- A batch-filter error short-circuits the cycle after the one query. -/
theorem Sync_eq_filterErr (s : SyncService) (f : Faults) (db : DB)
    (fetched : List Article) (e : Err)
    (hf : s.fetchResult = Except.ok fetched)
    (hfs : (filterForSync s f db (survivors s fetched)).1 = Except.error e) :
    Sync s f db = ((Option.none, Option.some (SyncError.filterFailed e)), db,
      Event.fetchArticles s.config.maxPagesPerSync ::
        (filterForSync s f db (survivors s fetched)).2) := by
  unfold Sync
  simp only [hf, hfs]

/-- Once both filters succeed, the cycle is its tail. -/
theorem Sync_eq_syncRest (s : SyncService) (f : Faults) (db : DB)
    (fetched toSync : List Article)
    (hf : s.fetchResult = Except.ok fetched)
    (hfs : (filterForSync s f db (survivors s fetched)).1 = Except.ok toSync) :
    Sync s f db = syncRest s f db (survivors s fetched) toSync
      (Event.fetchArticles s.config.maxPagesPerSync ::
        (filterForSync s f db (survivors s fetched)).2) := by
  unfold Sync
  simp only [hf, hfs]

/-- Publishing never changes the new counter. -/
theorem publishStep_new (s : SyncService) (f : Faults) (a : Article)
    (isNew : Bool) (stats : SyncStats) :
    (publishStep s f a isNew stats).1.new = stats.new := by
  unfold publishStep
  split
  · cases f.publishErr a.externalID <;> rfl
  · rfl

/-- Publishing never changes the updated counter. -/
theorem publishStep_updated (s : SyncService) (f : Faults) (a : Article)
    (isNew : Bool) (stats : SyncStats) :
    (publishStep s f a isNew stats).1.updated = stats.updated := by
  unfold publishStep
  split
  · cases f.publishErr a.externalID <;> rfl
  · rfl

/-- Counting a record adds exactly one to New+Updated. -/
theorem countStep_sum (isNew : Bool) (stats : SyncStats) :
    (countStep isNew stats).new + (countStep isNew stats).updated =
      stats.new + stats.updated + 1 := by
  unfold countStep
  cases isNew <;> simp <;> omega

/-- With no save-step fault on any selected record, the loop adds exactly
the selection size to New+Updated. -/
theorem syncLoop_counts (s : SyncService) (f : Faults) :
    ∀ (l : List Article) (db : DB) (stats : SyncStats) (ev : List Event),
      (∀ a ∈ l, f.recheckErr a.externalID = Option.none ∧
        f.upsertErr a.externalID = Option.none ∧
        f.tagUpsertErr a.externalID = Option.none ∧
        f.linkErr a.externalID = Option.none) →
      (syncLoop s f l db stats ev).2.1.new +
          (syncLoop s f l db stats ev).2.1.updated =
        stats.new + stats.updated + l.length := by
  intro l
  induction l with
  | nil => intro db stats ev h; rfl
  | cons a rest ih =>
      intro db stats ev h
      obtain ⟨h1, h2, h3, h4⟩ := h a (List.mem_cons_self a rest)
      have hok := saveArticle_ok s f db a h1 h2 h3 h4
      rw [syncLoop]
      simp only [hok]
      rw [ih _ _ _ (fun x hx => h x (List.mem_cons_of_mem a hx))]
      rw [countStep_sum, publishStep_new, publishStep_updated, List.length_cons]
      omega

/-- A cycle never decreases any persisted total. -/
theorem sync_total_mono (s : SyncService) (f : Faults) (db : DB) (sid : String) :
    persistedTotal db sid ≤ persistedTotal (Sync s f db).2.1 sid := by
  cases hf : s.fetchResult with
  | error e => rw [Sync_eq_fetchErr s f db e hf]
  | ok fetched =>
      cases hfs : (filterForSync s f db (survivors s fetched)).1 with
      | error e => rw [Sync_eq_filterErr s f db fetched e hf hfs]
      | ok toSync =>
          rw [Sync_eq_syncRest s f db fetched toSync hf hfs, syncRest_db]
          calc persistedTotal db sid
              = persistedTotal
                  (syncLoop s f toSync db
                    (initStats s (survivors s fetched) toSync) []).1 sid :=
                (persistedTotal_congr _ db sid
                  (syncLoop_syncStates s f toSync db _ [])).symm
            _ ≤ _ := updateSyncState_total_mono s f _ _ sid

/-- An error-free cycle returns stats and adds exactly New+Updated to the
persisted total of its source. -/
theorem sync_success_total (s : SyncService) (f : Faults) (db : DB)
    (h : (Sync s f db).1.2 = Option.none) :
    ∃ stats, (Sync s f db).1.1 = Option.some stats ∧
      persistedTotal (Sync s f db).2.1 s.sourceID =
        persistedTotal db s.sourceID + ((stats.new + stats.updated : Nat) : Int) := by
  cases hf : s.fetchResult with
  | error e => rw [Sync_eq_fetchErr s f db e hf] at h; simp at h
  | ok fetched =>
      cases hfs : (filterForSync s f db (survivors s fetched)).1 with
      | error e => rw [Sync_eq_filterErr s f db fetched e hf hfs] at h; simp at h
      | ok toSync =>
          rw [Sync_eq_syncRest s f db fetched toSync hf hfs] at h ⊢
          refine ⟨(syncLoop s f toSync db
            (initStats s (survivors s fetched) toSync) []).2.1,
            syncRest_stats s f db _ toSync _, ?_⟩
          rw [syncRest_db]
          have hupd := syncRest_none s f db (survivors s fetched) toSync _ h
          rw [updateSyncState_total_of_ok s f _ _ hupd]
          rw [persistedTotal_congr _ db s.sourceID
            (syncLoop_syncStates s f toSync db _ [])]

/-- The progress update always reads the state first. -/
theorem updateSyncState_trace_get (s : SyncService) (f : Faults) (db : DB)
    (stats : SyncStats) :
    Event.stateGet s.sourceID ∈ (updateSyncState s f db stats).2.2 := by
  unfold updateSyncState
  cases f.stateGetErr with
  | some e => simp
  | none => cases f.stateUpdateErr <;> simp

/-- A failing progress update turns the tail of the cycle into stats plus a
wrapped progress error. -/
theorem syncRest_eq_err (s : SyncService) (f : Faults) (db : DB)
    (articles toSync : List Article) (ev : List Event) (e : Err)
    (h : (updateSyncState s f
      (syncLoop s f toSync db (initStats s articles toSync) []).1
      (syncLoop s f toSync db (initStats s articles toSync) []).2.1).1 =
        Except.error e) :
    (syncRest s f db articles toSync ev).1 =
      (Option.some (syncLoop s f toSync db (initStats s articles toSync) []).2.1,
       Option.some (SyncError.updateStateFailed e)) := by
  simp only [syncRest]
  split
  · next e2 heq =>
      rw [h] at heq
      cases heq
      rfl
  · next x heq =>
      rw [h] at heq
      simp at heq

/-- The conditional update map of articleUpsert, looked up for the written
key: the first matching row is the updated one. -/
theorem find_articleRow_map (sid : String) (eid : Int) (a : Article) :
    ∀ rows : List ArticleRow,
      List.find? (fun r0 => r0.sourceID == sid && r0.externalID == eid)
          (rows.map (fun r0 =>
            if r0.sourceID == sid && r0.externalID == eid then updatedRow r0 a
            else r0)) =
        Option.map (fun r0 => updatedRow r0 a)
          (List.find? (fun r0 => r0.sourceID == sid && r0.externalID == eid) rows) := by
  intro rows
  induction rows with
  | nil => rfl
  | cons r rs ih =>
      rw [List.map_cons]
      by_cases h : (r.sourceID == sid && r.externalID == eid) = true
      · rw [if_pos h]
        rw [List.find?_cons_of_pos _ (by simpa using h),
          @List.find?_cons_of_pos _
            (fun r0 => r0.sourceID == sid && r0.externalID == eid) r rs h]
        rfl
      · rw [if_neg h]
        rw [List.find?_cons_of_neg _ (by simpa using h),
          @List.find?_cons_of_neg _
            (fun r0 => r0.sourceID == sid && r0.externalID == eid) r rs h]
        exact ih

/-- Unfolding one cycle of runCycles. -/
theorem runCycles_cons (db : DB) (c : SyncService × Faults)
    (rest : List (SyncService × Faults)) :
    runCycles db (c :: rest) =
      ((runCycles (Sync c.1 c.2 db).2.1 rest).1,
       (Sync c.1 c.2 db).1 :: (runCycles (Sync c.1 c.2 db).2.1 rest).2) := by
  rw [runCycles]

/-! The claims. -/

/-- C1: Change filter (filterForSync): among the records surviving the date
filter, a record is selected for persistence iff the batch existence query
has no stored last-modified timestamp for its external id or its incoming
LastModified is strictly after the stored one (ties are not selected), and
the returned stats count Skipped as the post-date-filter count minus the
selected count. -/
theorem changeFilter_correct (s : SyncService) (f : Faults) (db : DB)
    (fetched : List Article)
    (hf : s.fetchResult = Except.ok fetched)
    (hb : f.batchQueryErr = Option.none) :
    ∃ toSync stats,
      (filterForSync s f db (survivors s fetched)).1 = Except.ok toSync ∧
      (∀ a, a ∈ toSync ↔ a ∈ survivors s fetched ∧
        (goMapGet (getExistingRows db s.sourceID
            ((survivors s fetched).map (fun x => x.externalID))) a.externalID =
            Option.none ∨
         ∃ t, goMapGet (getExistingRows db s.sourceID
            ((survivors s fetched).map (fun x => x.externalID))) a.externalID =
            Option.some t ∧ a.lastModified > t)) ∧
      (Sync s f db).1.1 = Option.some stats ∧
      stats.skipped = (survivors s fetched).length - toSync.length := by
  have hfs := filterForSync_ok s f db (survivors s fetched) hb
  rw [Sync_eq_syncRest s f db fetched _ hf hfs]
  refine ⟨_, _, hfs, ?_, syncRest_stats s f db _ _ _, ?_⟩
  · intro a
    rw [List.mem_filter, wantsSync_iff]
  · rw [syncLoop_skipped]
    rfl

/-- Witness for C1 at a store whose only row is exArticle with an older
stored LastModified. -/
theorem changeFilter_correct_witness :
    (exService (Except.ok [exArticle])).fetchResult = Except.ok [exArticle] ∧
    Faults.none.batchQueryErr = Option.none ∧
    (∃ toSync stats,
      (filterForSync (exService (Except.ok [exArticle])) Faults.none exDBOlder
        (survivors (exService (Except.ok [exArticle])) [exArticle])).1 =
          Except.ok toSync ∧
      (∀ a, a ∈ toSync ↔
        a ∈ survivors (exService (Except.ok [exArticle])) [exArticle] ∧
        (goMapGet (getExistingRows exDBOlder
            (exService (Except.ok [exArticle])).sourceID
            ((survivors (exService (Except.ok [exArticle])) [exArticle]).map
              (fun x => x.externalID))) a.externalID = Option.none ∨
         ∃ t, goMapGet (getExistingRows exDBOlder
            (exService (Except.ok [exArticle])).sourceID
            ((survivors (exService (Except.ok [exArticle])) [exArticle]).map
              (fun x => x.externalID))) a.externalID = Option.some t ∧
           a.lastModified > t)) ∧
      (Sync (exService (Except.ok [exArticle])) Faults.none exDBOlder).1.1 =
        Option.some stats ∧
      stats.skipped =
        (survivors (exService (Except.ok [exArticle])) [exArticle]).length -
          toSync.length) :=
  ⟨rfl, rfl, changeFilter_correct _ _ exDBOlder [exArticle] rfl rfl⟩

/-- C2: Date filter: exactly the fetched records published strictly after
cutoff = now minus MaxHistoricalDays days are retained, and the returned
stats count Fetched as the retained count, not the count the Content Source
returned. -/
theorem dateFilter_correct (s : SyncService) (f : Faults) (db : DB)
    (fetched : List Article)
    (hf : s.fetchResult = Except.ok fetched)
    (hb : f.batchQueryErr = Option.none) :
    (∀ a, a ∈ survivors s fetched ↔ a ∈ fetched ∧ a.publishedAt > cutoffOf s) ∧
    ∃ stats, (Sync s f db).1.1 = Option.some stats ∧
      stats.fetched = (survivors s fetched).length := by
  constructor
  · intro a
    exact mem_filterByDate fetched (cutoffOf s) a
  · have hfs := filterForSync_ok s f db (survivors s fetched) hb
    rw [Sync_eq_syncRest s f db fetched _ hf hfs]
    exact ⟨_, syncRest_stats s f db _ _ _, by rw [syncLoop_fetched]; rfl⟩

/-- Witness for C2 on a fetch result holding one fresh and one 31-day-old
record. -/
theorem dateFilter_correct_witness :
    (exService (Except.ok [exArticle,
      { exArticle with externalID := 9, publishedAt := 1000000 - 31 * 86400 }])).fetchResult =
      Except.ok [exArticle,
        { exArticle with externalID := 9, publishedAt := 1000000 - 31 * 86400 }] ∧
    Faults.none.batchQueryErr = Option.none ∧
    ((∀ a, a ∈ survivors (exService (Except.ok [exArticle,
        { exArticle with externalID := 9, publishedAt := 1000000 - 31 * 86400 }]))
          [exArticle,
            { exArticle with externalID := 9, publishedAt := 1000000 - 31 * 86400 }] ↔
        a ∈ [exArticle,
          { exArticle with externalID := 9, publishedAt := 1000000 - 31 * 86400 }] ∧
        a.publishedAt > cutoffOf (exService (Except.ok [exArticle,
          { exArticle with externalID := 9, publishedAt := 1000000 - 31 * 86400 }]))) ∧
     ∃ stats,
       (Sync (exService (Except.ok [exArticle,
          { exArticle with externalID := 9, publishedAt := 1000000 - 31 * 86400 }]))
          Faults.none {}).1.1 = Option.some stats ∧
       stats.fetched = (survivors (exService (Except.ok [exArticle,
          { exArticle with externalID := 9, publishedAt := 1000000 - 31 * 86400 }]))
          [exArticle,
            { exArticle with externalID := 9, publishedAt := 1000000 - 31 * 86400 }]).length) :=
  ⟨rfl, rfl, dateFilter_correct _ _ {} _ rfl rfl⟩

/-- C3: a fetch error makes Sync return nil stats with a wrapped fetch
error, leaves the store untouched and performs no collaborator call other
than the fetch itself. -/
theorem fetchFailure_fatal (s : SyncService) (f : Faults) (db : DB) (e : Err)
    (hf : s.fetchResult = Except.error e) :
    (Sync s f db).1 = (Option.none, Option.some (SyncError.fetchFailed e)) ∧
    (Sync s f db).2.1 = db ∧
    (Sync s f db).2.2 = [Event.fetchArticles s.config.maxPagesPerSync] := by
  rw [Sync_eq_fetchErr s f db e hf]
  exact ⟨rfl, rfl, rfl⟩

/-- Witness for C3 on a failing fetch against a populated store. -/
theorem fetchFailure_fatal_witness :
    (exService (Except.error "api error")).fetchResult =
      Except.error "api error" ∧
    ((Sync (exService (Except.error "api error")) Faults.none exDBSame).1 =
      (Option.none, Option.some (SyncError.fetchFailed "api error")) ∧
     (Sync (exService (Except.error "api error")) Faults.none exDBSame).2.1 =
      exDBSame ∧
     (Sync (exService (Except.error "api error")) Faults.none exDBSame).2.2 =
      [Event.fetchArticles
        (exService (Except.error "api error")).config.maxPagesPerSync]) :=
  ⟨rfl, fetchFailure_fatal _ Faults.none exDBSame "api error" rfl⟩

/-- C5: progress update: every cycle that reaches the end of the persist
loop (including a zero-record selection) reads the current SyncState for
the source, restamps its LastSyncedAt to the current time, adds the cycle
stats New+Updated to TotalSynced and persists exactly that state; if the
read or the persist fails, Sync returns the cycle's already-computed stats
together with a non-nil wrapped progress error. -/
theorem progressUpdate_correct (s : SyncService) (f : Faults) (db : DB)
    (fetched toSync : List Article)
    (hf : s.fetchResult = Except.ok fetched)
    (htos : (filterForSync s f db (survivors s fetched)).1 = Except.ok toSync) :
    Event.stateGet s.sourceID ∈ (Sync s f db).2.2 ∧
    (f.stateGetErr = Option.none → f.stateUpdateErr = Option.none →
      (Sync s f db).1 =
        (Option.some (syncLoop s f toSync db
          (initStats s (survivors s fetched) toSync) []).2.1, Option.none) ∧
      (Sync s f db).2.1 =
        syncStateUpdate
          (syncLoop s f toSync db (initStats s (survivors s fetched) toSync) []).1
          (newSyncState s
            (syncLoop s f toSync db
              (initStats s (survivors s fetched) toSync) []).1
            (syncLoop s f toSync db
              (initStats s (survivors s fetched) toSync) []).2.1) ∧
      Event.stateUpdate (newSyncState s
        (syncLoop s f toSync db (initStats s (survivors s fetched) toSync) []).1
        (syncLoop s f toSync db
          (initStats s (survivors s fetched) toSync) []).2.1) ∈
        (Sync s f db).2.2 ∧
      (newSyncState s
        (syncLoop s f toSync db (initStats s (survivors s fetched) toSync) []).1
        (syncLoop s f toSync db
          (initStats s (survivors s fetched) toSync) []).2.1).sourceID =
          s.sourceID ∧
      (newSyncState s
        (syncLoop s f toSync db (initStats s (survivors s fetched) toSync) []).1
        (syncLoop s f toSync db
          (initStats s (survivors s fetched) toSync) []).2.1).lastSyncedAt =
          s.nowUpdate ∧
      (newSyncState s
        (syncLoop s f toSync db (initStats s (survivors s fetched) toSync) []).1
        (syncLoop s f toSync db
          (initStats s (survivors s fetched) toSync) []).2.1).totalSynced =
        (syncStateGet
          (syncLoop s f toSync db
            (initStats s (survivors s fetched) toSync) []).1
          s.sourceID).totalSynced +
          (((syncLoop s f toSync db
              (initStats s (survivors s fetched) toSync) []).2.1.new +
            (syncLoop s f toSync db
              (initStats s (survivors s fetched) toSync) []).2.1.updated : Nat) :
            Int)) ∧
    (¬(f.stateGetErr = Option.none ∧ f.stateUpdateErr = Option.none) →
      ∃ e, (Sync s f db).1 =
        (Option.some (syncLoop s f toSync db
          (initStats s (survivors s fetched) toSync) []).2.1,
         Option.some (SyncError.updateStateFailed e)) ∧
        (Sync s f db).2.1 =
          (syncLoop s f toSync db
            (initStats s (survivors s fetched) toSync) []).1) := by
  have hS := Sync_eq_syncRest s f db fetched toSync hf htos
  refine ⟨?_, ?_, ?_⟩
  · rw [hS, syncRest_trace]
    exact List.mem_append.mpr (Or.inr (updateSyncState_trace_get s f _ _))
  · intro hg hu
    refine ⟨?_, ?_, ?_, rfl, rfl, rfl⟩
    · rw [hS]
      simp only [syncRest]
      rw [updateSyncState_ok s f _ _ hg hu]
    · rw [hS, syncRest_db, updateSyncState_ok s f _ _ hg hu]
    · rw [hS, syncRest_trace, updateSyncState_ok s f _ _ hg hu]
      simp
  · intro hne
    obtain ⟨e, he, hdb⟩ := updateSyncState_err s f
      (syncLoop s f toSync db (initStats s (survivors s fetched) toSync) []).1
      (syncLoop s f toSync db (initStats s (survivors s fetched) toSync) []).2.1
      hne
    refine ⟨e, ?_, ?_⟩
    · rw [hS]
      exact syncRest_eq_err s f db _ _ _ e he
    · rw [hS, syncRest_db, hdb]

/-- Witness for C5: a fault-free cycle with an empty selection persisting
the restamped state, and a cycle whose progress persist fails yet returns
the loop's stats with the wrapped error. -/
theorem progressUpdate_correct_witness :
    (exService (Except.ok [exArticle])).fetchResult = Except.ok [exArticle] ∧
    Faults.none.batchQueryErr = Option.none ∧
    (filterForSync (exService (Except.ok [exArticle])) Faults.none exDBSame
      (survivors (exService (Except.ok [exArticle])) [exArticle])).1 =
      Except.ok [] ∧
    Faults.none.stateGetErr = Option.none ∧
    Faults.none.stateUpdateErr = Option.none ∧
    ((Sync (exService (Except.ok [exArticle])) Faults.none exDBSame).1 =
      (Option.some (syncLoop (exService (Except.ok [exArticle])) Faults.none []
          exDBSame
          (initStats (exService (Except.ok [exArticle]))
            (survivors (exService (Except.ok [exArticle])) [exArticle]) [])
          []).2.1,
       Option.none) ∧
     (Sync (exService (Except.ok [exArticle])) Faults.none exDBSame).2.1 =
       syncStateUpdate
         (syncLoop (exService (Except.ok [exArticle])) Faults.none [] exDBSame
           (initStats (exService (Except.ok [exArticle]))
             (survivors (exService (Except.ok [exArticle])) [exArticle]) [])
           []).1
         (newSyncState (exService (Except.ok [exArticle]))
           (syncLoop (exService (Except.ok [exArticle])) Faults.none [] exDBSame
             (initStats (exService (Except.ok [exArticle]))
               (survivors (exService (Except.ok [exArticle])) [exArticle]) [])
             []).1
           (syncLoop (exService (Except.ok [exArticle])) Faults.none [] exDBSame
             (initStats (exService (Except.ok [exArticle]))
               (survivors (exService (Except.ok [exArticle])) [exArticle]) [])
             []).2.1)) ∧
    (filterForSync (exService (Except.ok [exArticle])) exFaultStateUpdate {}
      (survivors (exService (Except.ok [exArticle])) [exArticle])).1 =
      Except.ok [exArticle] ∧
    ¬(exFaultStateUpdate.stateGetErr = Option.none ∧
      exFaultStateUpdate.stateUpdateErr = Option.none) ∧
    (∃ e, (Sync (exService (Except.ok [exArticle])) exFaultStateUpdate {}).1 =
      (Option.some (syncLoop (exService (Except.ok [exArticle]))
          exFaultStateUpdate [exArticle] {}
          (initStats (exService (Except.ok [exArticle]))
            (survivors (exService (Except.ok [exArticle])) [exArticle])
            [exArticle]) []).2.1,
       Option.some (SyncError.updateStateFailed e)) ∧
      (Sync (exService (Except.ok [exArticle])) exFaultStateUpdate {}).2.1 =
        (syncLoop (exService (Except.ok [exArticle])) exFaultStateUpdate
          [exArticle] {}
          (initStats (exService (Except.ok [exArticle]))
            (survivors (exService (Except.ok [exArticle])) [exArticle])
            [exArticle]) []).1) := by
  have hOk := progressUpdate_correct (exService (Except.ok [exArticle]))
    Faults.none exDBSame [exArticle] [] rfl rfl
  have hErr := progressUpdate_correct (exService (Except.ok [exArticle]))
    exFaultStateUpdate {} [exArticle] [exArticle] rfl rfl
  have hMain := hOk.2.1 rfl rfl
  exact ⟨rfl, rfl, rfl, rfl, rfl, ⟨hMain.1, hMain.2.1⟩, rfl, by decide,
    hErr.2.2 (by decide)⟩

/-- C7: idempotence: when the store already holds each surviving record
with exactly its incoming LastModified (the state a first successful run
leaves), a second run with the same fetch result selects nothing: New=0,
Updated=0 and Skipped equals the full surviving count. -/
theorem sync_idempotent (s : SyncService) (f : Faults) (db : DB)
    (fetched : List Article)
    (hf : s.fetchResult = Except.ok fetched)
    (hb : f.batchQueryErr = Option.none)
    (hstored : ∀ a ∈ survivors s fetched,
      goMapGet (getExistingRows db s.sourceID
        ((survivors s fetched).map (fun x => x.externalID))) a.externalID =
        Option.some a.lastModified) :
    ∃ stats, (Sync s f db).1.1 = Option.some stats ∧
      stats.new = 0 ∧ stats.updated = 0 ∧
      stats.skipped = (survivors s fetched).length := by
  have hfs := filterForSync_ok s f db (survivors s fetched) hb
  have hnil : (survivors s fetched).filter
      (fun a => wantsSync (getExistingRows db s.sourceID
        ((survivors s fetched).map (fun x => x.externalID))) a) = [] := by
    rw [List.filter_eq_nil_iff]
    intro a ha
    simp [wantsSync, hstored a ha]
  rw [hnil] at hfs
  rw [Sync_eq_syncRest s f db fetched [] hf hfs]
  refine ⟨_, syncRest_stats s f db _ [] _, rfl, rfl, ?_⟩
  show (initStats s (survivors s fetched) []).skipped = (survivors s fetched).length
  simp [initStats]

/-- Witness for C7 on a store produced by a first successful run over one
article. -/
theorem sync_idempotent_witness :
    (exService (Except.ok [exArticle])).fetchResult = Except.ok [exArticle] ∧
    Faults.none.batchQueryErr = Option.none ∧
    (∀ a ∈ survivors (exService (Except.ok [exArticle])) [exArticle],
      goMapGet (getExistingRows exDBSame
        (exService (Except.ok [exArticle])).sourceID
        ((survivors (exService (Except.ok [exArticle])) [exArticle]).map
          (fun x => x.externalID))) a.externalID = Option.some a.lastModified) ∧
    (∃ stats,
      (Sync (exService (Except.ok [exArticle])) Faults.none exDBSame).1.1 =
        Option.some stats ∧
      stats.new = 0 ∧ stats.updated = 0 ∧
      stats.skipped =
        (survivors (exService (Except.ok [exArticle])) [exArticle]).length) := by
  refine ⟨rfl, rfl, by decide, ?_⟩
  exact sync_idempotent (exService (Except.ok [exArticle])) Faults.none exDBSame
    [exArticle] rfl rfl (by decide)

/-- C8: counter identity: in a cycle without save-step faults the returned
stats satisfy New + Updated + Skipped = Fetched, with Fetched the
post-date-filter count. -/
theorem counter_identity (s : SyncService) (f : Faults) (db : DB)
    (fetched : List Article)
    (hf : s.fetchResult = Except.ok fetched)
    (hb : f.batchQueryErr = Option.none)
    (hsave : ∀ a ∈ fetched, f.recheckErr a.externalID = Option.none ∧
      f.upsertErr a.externalID = Option.none ∧
      f.tagUpsertErr a.externalID = Option.none ∧
      f.linkErr a.externalID = Option.none) :
    ∃ stats, (Sync s f db).1.1 = Option.some stats ∧
      stats.fetched = (survivors s fetched).length ∧
      stats.new + stats.updated + stats.skipped = stats.fetched := by
  have hfs := filterForSync_ok s f db (survivors s fetched) hb
  set toSync := (survivors s fetched).filter
    (fun a => wantsSync (getExistingRows db s.sourceID
      ((survivors s fetched).map (fun x => x.externalID))) a) with hto
  have hsub : ∀ a ∈ toSync, f.recheckErr a.externalID = Option.none ∧
      f.upsertErr a.externalID = Option.none ∧
      f.tagUpsertErr a.externalID = Option.none ∧
      f.linkErr a.externalID = Option.none := by
    intro a ha
    rw [hto] at ha
    have h1 : a ∈ survivors s fetched := (List.mem_filter.mp ha).1
    have h2 : a ∈ fetched := ((mem_filterByDate fetched (cutoffOf s) a).mp h1).1
    exact hsave a h2
  rw [Sync_eq_syncRest s f db fetched toSync hf hfs]
  refine ⟨_, syncRest_stats s f db _ toSync _, ?_, ?_⟩
  · rw [syncLoop_fetched]
    rfl
  · have hc := syncLoop_counts s f toSync db
      (initStats s (survivors s fetched) toSync) [] hsub
    have hk := syncLoop_skipped s f toSync db
      (initStats s (survivors s fetched) toSync) []
    have hfet := syncLoop_fetched s f toSync db
      (initStats s (survivors s fetched) toSync) []
    have hle : toSync.length ≤ (survivors s fetched).length := by
      rw [hto]
      exact List.length_filter_le _ _
    simp only [initStats] at hc hk hfet ⊢
    omega

/-- Witness for C8 on a fetch of one fresh and one already-stored article
against a store with an older row. -/
theorem counter_identity_witness :
    (exService (Except.ok [exArticle, exArticle2])).fetchResult =
      Except.ok [exArticle, exArticle2] ∧
    Faults.none.batchQueryErr = Option.none ∧
    (∀ a ∈ [exArticle, exArticle2],
      Faults.none.recheckErr a.externalID = Option.none ∧
      Faults.none.upsertErr a.externalID = Option.none ∧
      Faults.none.tagUpsertErr a.externalID = Option.none ∧
      Faults.none.linkErr a.externalID = Option.none) ∧
    (∃ stats,
      (Sync (exService (Except.ok [exArticle, exArticle2])) Faults.none
        exDBOlder).1.1 = Option.some stats ∧
      stats.fetched =
        (survivors (exService (Except.ok [exArticle, exArticle2]))
          [exArticle, exArticle2]).length ∧
      stats.new + stats.updated + stats.skipped = stats.fetched) := by
  have hsave : ∀ a ∈ [exArticle, exArticle2],
      Faults.none.recheckErr a.externalID = Option.none ∧
      Faults.none.upsertErr a.externalID = Option.none ∧
      Faults.none.tagUpsertErr a.externalID = Option.none ∧
      Faults.none.linkErr a.externalID = Option.none :=
    fun a _ => ⟨rfl, rfl, rfl, rfl⟩
  exact ⟨rfl, rfl, hsave,
    counter_identity (exService (Except.ok [exArticle, exArticle2])) Faults.none
      exDBOlder [exArticle, exArticle2] rfl rfl hsave⟩

/-- C9: conditional upsert: for a record whose (source id, external id)
already exists in the store, Upsert overwrites the stored row exactly when
the incoming last-modified is strictly newer; with an equal or older
timestamp the store is unchanged; in all cases the existing row id is
returned. -/
theorem conditional_upsert (db : DB) (a : Article) (r : ArticleRow)
    (hr : db.findArticle a.sourceID a.externalID = Option.some r) :
    (articleUpsert db a).2 = r.id ∧
    (r.lastModified < a.lastModified →
      (articleUpsert db a).1.findArticle a.sourceID a.externalID =
        Option.some (updatedRow r a)) ∧
    (¬r.lastModified < a.lastModified → (articleUpsert db a).1 = db) := by
  unfold articleUpsert
  simp only [hr]
  refine ⟨?_, ?_, ?_⟩
  · by_cases h : r.lastModified < a.lastModified <;> simp [h]
  · intro h
    rw [if_pos h]
    unfold DB.findArticle at hr ⊢
    rw [find_articleRow_map a.sourceID a.externalID a db.articleRows, hr]
    rfl
  · intro h
    rw [if_neg h]

/-- Witness for C9: a stale incoming record against a stored newer row, and
the returned identifier. -/
theorem conditional_upsert_witness :
    exDBSame.findArticle exArticle2.sourceID 1 =
      Option.some (insertedRow 100 exArticle) ∧
    ¬(insertedRow 100 exArticle).lastModified <
        ({ exArticle2 with externalID := 1 } : Article).lastModified ∧
    (articleUpsert exDBSame { exArticle2 with externalID := 1 }).2 =
      (insertedRow 100 exArticle).id ∧
    (articleUpsert exDBSame { exArticle2 with externalID := 1 }).1 = exDBSame := by
  have h := conditional_upsert exDBSame { exArticle2 with externalID := 1 }
    (insertedRow 100 exArticle) (by decide)
  exact ⟨by decide, by decide, h.1, h.2.2 (by decide)⟩

/-- C10: a cycle with zero surviving records issues no store query, no
transaction and no publish, yet still reads and updates the SyncState and
returns stats with Fetched=0, Skipped=0, New=0, Updated=0. -/
theorem zero_survivors_cycle (s : SyncService) (f : Faults) (db : DB)
    (fetched : List Article)
    (hf : s.fetchResult = Except.ok fetched)
    (hz : survivors s fetched = [])
    (hg : f.stateGetErr = Option.none)
    (hu : f.stateUpdateErr = Option.none) :
    (∀ sid ids, Event.getExisting sid ids ∉ (Sync s f db).2.2) ∧
    Event.withTransaction ∉ (Sync s f db).2.2 ∧
    (∀ x b, Event.publish x b ∉ (Sync s f db).2.2) ∧
    Event.stateGet s.sourceID ∈ (Sync s f db).2.2 ∧
    (Sync s f db).2.1 =
      syncStateUpdate db (newSyncState s db (initStats s [] [])) ∧
    ∃ stats, (Sync s f db).1 = (Option.some stats, Option.none) ∧
      stats.fetched = 0 ∧ stats.skipped = 0 ∧ stats.new = 0 ∧
      stats.updated = 0 := by
  have hfs : (filterForSync s f db (survivors s fetched)).1 = Except.ok [] := by
    rw [hz]
    rfl
  have hSync := Sync_eq_syncRest s f db fetched [] hf hfs
  have htr : (Sync s f db).2.2 =
      [Event.fetchArticles s.config.maxPagesPerSync, Event.stateGet s.sourceID,
       Event.stateUpdate (newSyncState s db (initStats s [] []))] := by
    rw [hSync, hz, syncRest_trace]
    rw [updateSyncState_ok s f _ _ hg hu]
    simp [syncLoop, filterForSync]
  refine ⟨?_, ?_, ?_, ?_, ?_, ?_⟩
  · intro sid ids
    rw [htr]
    simp
  · rw [htr]
    simp
  · intro x b
    rw [htr]
    simp
  · rw [htr]
    simp
  · rw [hSync, hz, syncRest_db]
    rw [updateSyncState_ok s f _ _ hg hu]
    rfl
  · refine ⟨initStats s [] [], ?_, rfl, rfl, rfl, rfl⟩
    rw [hSync, hz]
    simp only [syncRest]
    rw [updateSyncState_ok s f _ _ hg hu]
    rfl

/-- Witness for C10 on a fetch returning only a 31-day-old record. -/
theorem zero_survivors_cycle_witness :
    (exService (Except.ok [{ exArticle with publishedAt := 1000000 - 31 * 86400 }])).fetchResult =
      Except.ok [{ exArticle with publishedAt := 1000000 - 31 * 86400 }] ∧
    survivors (exService (Except.ok [{ exArticle with publishedAt := 1000000 - 31 * 86400 }]))
      [{ exArticle with publishedAt := 1000000 - 31 * 86400 }] = [] ∧
    Faults.none.stateGetErr = Option.none ∧
    Faults.none.stateUpdateErr = Option.none ∧
    ((∀ sid ids, Event.getExisting sid ids ∉
        (Sync (exService (Except.ok [{ exArticle with publishedAt := 1000000 - 31 * 86400 }]))
          Faults.none exDBSame).2.2) ∧
     Event.withTransaction ∉
        (Sync (exService (Except.ok [{ exArticle with publishedAt := 1000000 - 31 * 86400 }]))
          Faults.none exDBSame).2.2 ∧
     (∀ x b, Event.publish x b ∉
        (Sync (exService (Except.ok [{ exArticle with publishedAt := 1000000 - 31 * 86400 }]))
          Faults.none exDBSame).2.2) ∧
     Event.stateGet (exService (Except.ok [{ exArticle with publishedAt := 1000000 - 31 * 86400 }])).sourceID ∈
        (Sync (exService (Except.ok [{ exArticle with publishedAt := 1000000 - 31 * 86400 }]))
          Faults.none exDBSame).2.2 ∧
     (Sync (exService (Except.ok [{ exArticle with publishedAt := 1000000 - 31 * 86400 }]))
        Faults.none exDBSame).2.1 =
       syncStateUpdate exDBSame
         (newSyncState (exService (Except.ok [{ exArticle with publishedAt := 1000000 - 31 * 86400 }]))
           exDBSame
           (initStats (exService (Except.ok [{ exArticle with publishedAt := 1000000 - 31 * 86400 }])) [] [])) ∧
     ∃ stats,
       (Sync (exService (Except.ok [{ exArticle with publishedAt := 1000000 - 31 * 86400 }]))
          Faults.none exDBSame).1 = (Option.some stats, Option.none) ∧
       stats.fetched = 0 ∧ stats.skipped = 0 ∧ stats.new = 0 ∧
       stats.updated = 0) := by
  refine ⟨rfl, by decide, rfl, rfl, ?_⟩
  exact zero_survivors_cycle
    (exService (Except.ok [{ exArticle with publishedAt := 1000000 - 31 * 86400 }]))
    Faults.none exDBSame [{ exArticle with publishedAt := 1000000 - 31 * 86400 }]
    rfl (by decide) rfl rfl

/-- C6: the persisted TotalSynced of a source never decreases across
cycles, and after N completed (error-free) cycles for that source it equals
its initial value plus the sum of each cycle's New+Updated. -/
theorem totalSynced_monotone_additive :
    (∀ (s : SyncService) (f : Faults) (db : DB) (sid : String),
      persistedTotal db sid ≤ persistedTotal (Sync s f db).2.1 sid) ∧
    (∀ (cycles : List (SyncService × Faults)) (db : DB) (sid : String),
      (∀ c ∈ cycles, c.1.sourceID = sid) →
      (∀ r ∈ (runCycles db cycles).2, r.2 = Option.none) →
      persistedTotal (runCycles db cycles).1 sid =
        persistedTotal db sid +
          ((runCycles db cycles).2.map (fun r =>
            match r.1 with
            | Option.some st => ((st.new + st.updated : Nat) : Int)
            | Option.none => 0)).sum) := by
  refine ⟨sync_total_mono, ?_⟩
  intro cycles
  induction cycles with
  | nil =>
      intro db sid hsrc hok
      simp [runCycles]
  | cons c rest ih =>
      intro db sid hsrc hok
      rw [runCycles_cons] at hok ⊢
      have hhead : (Sync c.1 c.2 db).1.2 = Option.none :=
        hok (Sync c.1 c.2 db).1 (List.mem_cons_self _ _)
      obtain ⟨stats, hst, htot⟩ := sync_success_total c.1 c.2 db hhead
      have hsid : c.1.sourceID = sid := hsrc c (List.mem_cons_self c rest)
      rw [hsid] at htot
      rw [ih (Sync c.1 c.2 db).2.1 sid
        (fun x hx => hsrc x (List.mem_cons_of_mem c hx))
        (fun r hr => hok r (List.mem_cons_of_mem _ hr))]
      simp only [List.map_cons, List.sum_cons, hst, htot]
      push_cast
      ring

/-- Witness for C6: one fault-free cycle over one fresh article starting
from the empty store. -/
theorem totalSynced_monotone_additive_witness :
    (∀ c ∈ [(exService (Except.ok [exArticle]), Faults.none)],
      c.1.sourceID = "src") ∧
    (∀ r ∈ (runCycles {} [(exService (Except.ok [exArticle]), Faults.none)]).2,
      r.2 = Option.none) ∧
    persistedTotal ({} : DB) "src" ≤
      persistedTotal (Sync (exService (Except.ok [exArticle])) Faults.none {}).2.1
        "src" ∧
    persistedTotal
        (runCycles {} [(exService (Except.ok [exArticle]), Faults.none)]).1 "src" =
      persistedTotal ({} : DB) "src" +
        ((runCycles {} [(exService (Except.ok [exArticle]), Faults.none)]).2.map
          (fun r =>
            match r.1 with
            | Option.some st => ((st.new + st.updated : Nat) : Int)
            | Option.none => 0)).sum := by
  have h1 : ∀ c ∈ [(exService (Except.ok [exArticle]), Faults.none)],
      c.1.sourceID = "src" := by
    intro c hc
    rw [List.mem_singleton] at hc
    subst hc
    rfl
  have h2 : ∀ r ∈ (runCycles {} [(exService (Except.ok [exArticle]),
      Faults.none)]).2, r.2 = Option.none := by
    intro r hr
    rw [show (runCycles ({} : DB) [(exService (Except.ok [exArticle]),
        Faults.none)]).2 =
      [(Sync (exService (Except.ok [exArticle])) Faults.none {}).1] from rfl] at hr
    rw [List.mem_singleton] at hr
    subst hr
    rfl
  exact ⟨h1, h2,
    totalSynced_monotone_additive.1 (exService (Except.ok [exArticle]))
      Faults.none {} "src",
    totalSynced_monotone_additive.2 _ {} "src" h1 h2⟩

end NewsFetcher
